import Mathlib

/-!
Verification of the ospp_api / gating / edx_global_analytics fragments of the
edx-platform repository.  Each Python view or handler is shallowly embedded as
a pure Lean function over an explicit environment (the database rows and the
behaviour of external framework services), and the claims about the code are
settled as theorems about these functions.
-/

set_option maxRecDepth 4000

/- ----------------------------------------------------------------------------
Section 1: analytics date helpers.

The module openedx/core/djangoapps/edx_global_analytics/utils.py is not part of
the sources; only its unit tests are
(tests/test_instance_students_amount_helpers.py).  The three helpers are
modelled from the spec, and the test assertions are checked against the model.
---------------------------------------------------------------------------- -/

/-- Calendar date, mirroring a datetime.date value. -/
structure PyDate where
  year : Nat
  month : Nat
  day : Nat
deriving DecidableEq, Repr

/-- Gregorian leap-year test. -/
def isLeapYear (y : Nat) : Bool :=
  (y % 4 = 0 && y % 100 ≠ 0) || y % 400 = 0

/-- Number of days in a month of a given year. -/
def daysInMonth (y m : Nat) : Nat :=
  if m = 2 then (if isLeapYear y then 29 else 28)
  else if m = 4 || m = 6 || m = 9 || m = 11 then 30
  else 31

/-- The day before a given date. -/
def predDay (d : PyDate) : PyDate :=
  if d.day > 1 then { d with day := d.day - 1 }
  else if d.month > 1 then { year := d.year, month := d.month - 1, day := daysInMonth d.year (d.month - 1) }
  else { year := d.year - 1, month := 12, day := 31 }

/-- Subtraction of a number of days from a date (date - timedelta(days=n)). -/
def subDays (d : PyDate) : Nat → PyDate
  | 0 => d
  | n + 1 => predDay (subDays d n)

/-- Day of week with 0 = Sunday, by the Sakamoto congruence. -/
def dowSunday0 (d : PyDate) : Nat :=
  let t : List Nat := [0, 3, 2, 5, 0, 3, 5, 1, 4, 6, 2, 4]
  let y := if d.month < 3 then d.year - 1 else d.year
  (y + y / 4 - y / 100 + y / 400 + t.getD (d.month - 1) 0 + d.day) % 7

/-- Day of week with 0 = Monday, matching datetime.date.weekday(). -/
def pyWeekday (d : PyDate) : Nat :=
  (dowSunday0 d + 6) % 7

/-- Modelled from the spec: edx_global_analytics.utils.get_previous_day_start_and_end_dates
(the helper module itself is absent from the sources).  The previous-day bucket
runs from yesterday to today. -/
def get_previous_day_start_and_end_dates (today : PyDate) : PyDate × PyDate :=
  (subDays today 1, today)

/-- Modelled from the spec: edx_global_analytics.utils.get_previous_week_start_and_end_dates
(the helper module itself is absent from the sources).  The previous-week bucket
runs from the Monday of the previous week to the Monday of the current week. -/
def get_previous_week_start_and_end_dates (today : PyDate) : PyDate × PyDate :=
  (subDays today (pyWeekday today + 7), subDays today (pyWeekday today))

/-- Modelled from the spec: edx_global_analytics.utils.get_previous_month_start_and_end_dates
(the helper module itself is absent from the sources).  The previous-month
bucket runs from the first day of the previous month to the first day of the
current month. -/
def get_previous_month_start_and_end_dates (today : PyDate) : PyDate × PyDate :=
  let endDate := { today with day := 1 }
  let startDate := { predDay endDate with day := 1 }
  (startDate, endDate)

/- ----------------------------------------------------------------------------
Section 2: SendCreditRequest.post (lms/djangoapps/ospp_api/views.py).
---------------------------------------------------------------------------- -/

/-- A student.models.CourseEnrollment row, as far as the embedded views read it. -/
structure CourseEnrollmentRow where
  userId : Nat
  courseId : String
  mode : String
deriving DecidableEq, Repr

/-- A credit.models.CreditRequest row.  The course field holds the course key of
the CreditCourse row the request points at, or none when the view stored a null
course (CreditCourse.objects.filter(...).first() returned None). -/
structure CreditRequestRow where
  username : String
  course : Option String
  provider : Option String
  uuidHex : String
  paramsDescription : String
  status : String
deriving DecidableEq, Repr

/-- Database state read and written by SendCreditRequest.post. -/
structure CreditDb where
  enrollments : List CourseEnrollmentRow
  creditCourses : List String
  providers : List String
  creditRequests : List CreditRequestRow
deriving DecidableEq, Repr

/-- External behaviour used by SendCreditRequest.post: course-key validation
(CourseKey.from_string) and uuid generation (uuid.uuid4().hex). -/
structure CreditEnv where
  validCourseKey : String → Bool
  freshUuid : String

/-- Response of SendCreditRequest.post.  invalidKeyError stands for the uncaught
InvalidKeyError raised by CourseKey.from_string on a malformed course id. -/
inductive CreditResponse where
  | ok
  | wrongEnrollmentType
  | invalidKeyError (courseId : String)
deriving DecidableEq, Repr

/-- HTTP status of a CreditResponse (an uncaught exception surfaces as 500). -/
def creditStatusOf : CreditResponse → Nat
  | .ok => 200
  | .wrongEnrollmentType => 400
  | .invalidKeyError _ => 500

/-- Result of one SendCreditRequest.post call: the database afterwards, the
response, and the tracking events emitted while handling the request. -/
structure CreditPostResult where
  db : CreditDb
  response : CreditResponse
  events : List String
deriving DecidableEq, Repr

/-- CourseEnrollment.objects.filter(user__id=..., course_id=..., mode=credit).exists(). -/
def creditEnrolled (db : CreditDb) (userId : Nat) (courseKey : String) : Bool :=
  db.enrollments.any fun e => e.userId == userId && e.courseId == courseKey && e.mode == "credit"

/-- CreditRequest.objects.filter(username=..., course=...).exists(). -/
def hasCreditRequest (db : CreditDb) (username : String) (course : Option String) : Bool :=
  db.creditRequests.any fun r => r.username == username && r.course == course

/-- Embedding of SendCreditRequest.post.  The requesting user (request.user) is
given by id and username; course_id is the request body field. -/
def sendCreditRequestPost (env : CreditEnv) (db : CreditDb) (userId : Nat)
    (username : String) (courseId : String) : CreditPostResult :=
  if env.validCourseKey courseId = false then
    { db := db, response := .invalidKeyError courseId, events := [] }
  else if creditEnrolled db userId courseId = false then
    { db := db, response := .wrongEnrollmentType, events := [] }
  else
    let course := db.creditCourses.find? fun c => c == courseId
    if hasCreditRequest db username course then
      { db := db, response := .ok, events := [] }
    else
      let row : CreditRequestRow :=
        { username := username, course := course, provider := db.providers.head?,
          uuidHex := env.freshUuid, paramsDescription := "autogenerated", status := "pending" }
      { db := { db with creditRequests := db.creditRequests ++ [row] },
        response := .ok, events := ["credit.request.created"] }

/- ----------------------------------------------------------------------------
Theorems for the analytics date helpers and the credit request view.
---------------------------------------------------------------------------- -/

/-- C10: the date-bucket helpers compute previous-period boundaries as the unit
tests assert for today = 2017-06-14: previous day (2017-06-13, 2017-06-14),
previous week (2017-06-05, 2017-06-12), previous month (2017-05-01, 2017-06-01). -/
theorem date_bucket_helpers_match_tests :
    get_previous_day_start_and_end_dates ⟨2017, 6, 14⟩ = (⟨2017, 6, 13⟩, ⟨2017, 6, 14⟩) ∧
    get_previous_week_start_and_end_dates ⟨2017, 6, 14⟩ = (⟨2017, 6, 5⟩, ⟨2017, 6, 12⟩) ∧
    get_previous_month_start_and_end_dates ⟨2017, 6, 14⟩ = (⟨2017, 5, 1⟩, ⟨2017, 6, 1⟩) := by
  decide

/-- C7: for a parseable course id, SendCreditRequest.post answers HTTP 400 exactly
when the requesting user has no CourseEnrollment with mode credit for the course,
and in that case the credit-request store is unchanged and no event is emitted. -/
theorem sendCreditRequest_400_iff_not_credit_enrolled
    (env : CreditEnv) (db : CreditDb) (userId : Nat) (username courseId : String)
    (hkey : env.validCourseKey courseId = true) :
    (creditStatusOf (sendCreditRequestPost env db userId username courseId).response = 400
      ↔ creditEnrolled db userId courseId = false) ∧
    (creditEnrolled db userId courseId = false →
      (sendCreditRequestPost env db userId username courseId).db = db ∧
      (sendCreditRequestPost env db userId username courseId).events = []) := by
  cases hE : creditEnrolled db userId courseId with
  | false => simp [sendCreditRequestPost, hkey, hE, creditStatusOf]
  | true =>
    unfold sendCreditRequestPost
    rw [hkey, hE]
    simp only [Bool.true_eq_false, reduceIte]
    split <;> simp [creditStatusOf]

/-- Witness for C7 at a concrete environment and database. -/
def creditEnv0 : CreditEnv :=
  { validCourseKey := fun _ => true, freshUuid := "aabb0011" }

/-- Witness database: user 5 has a credit-mode enrollment, user 6 has none. -/
def creditDb0 : CreditDb :=
  { enrollments := [⟨5, "course-v1:X+Y+Z", "credit"⟩],
    creditCourses := ["course-v1:X+Y+Z"],
    providers := ["hogwarts"],
    creditRequests := [] }

theorem sendCreditRequest_400_iff_witness :
    (creditStatusOf (sendCreditRequestPost creditEnv0 creditDb0 6 "bob" "course-v1:X+Y+Z").response = 400
      ↔ creditEnrolled creditDb0 6 "course-v1:X+Y+Z" = false) ∧
    (creditEnrolled creditDb0 6 "course-v1:X+Y+Z" = false →
      (sendCreditRequestPost creditEnv0 creditDb0 6 "bob" "course-v1:X+Y+Z").db = creditDb0 ∧
      (sendCreditRequestPost creditEnv0 creditDb0 6 "bob" "course-v1:X+Y+Z").events = []) :=
  sendCreditRequest_400_iff_not_credit_enrolled creditEnv0 creditDb0 6 "bob" "course-v1:X+Y+Z" rfl

/-- C3: SendCreditRequest.post is idempotent on the credit-request store: for a
credit-enrolled user, the first post appends exactly one pending record and emits
one event; a post finding an existing record for the same user and course leaves
the store unchanged, emits nothing and still answers 200 ok; in particular a
second post right after the first changes nothing. -/
theorem sendCreditRequest_idempotent
    (env : CreditEnv) (db : CreditDb) (userId : Nat) (username courseId : String)
    (hkey : env.validCourseKey courseId = true)
    (henr : creditEnrolled db userId courseId = true) :
    (hasCreditRequest db username (db.creditCourses.find? fun c => c == courseId) = false →
      (sendCreditRequestPost env db userId username courseId).db.creditRequests
        = db.creditRequests ++
          [{ username := username, course := db.creditCourses.find? fun c => c == courseId,
             provider := db.providers.head?, uuidHex := env.freshUuid,
             paramsDescription := "autogenerated", status := "pending" }] ∧
      (sendCreditRequestPost env db userId username courseId).response = .ok ∧
      (sendCreditRequestPost env db userId username courseId).events = ["credit.request.created"]) ∧
    (hasCreditRequest db username (db.creditCourses.find? fun c => c == courseId) = true →
      (sendCreditRequestPost env db userId username courseId).db = db ∧
      (sendCreditRequestPost env db userId username courseId).response = .ok ∧
      (sendCreditRequestPost env db userId username courseId).events = []) ∧
    ((sendCreditRequestPost env (sendCreditRequestPost env db userId username courseId).db
        userId username courseId).db
      = (sendCreditRequestPost env db userId username courseId).db ∧
     (sendCreditRequestPost env (sendCreditRequestPost env db userId username courseId).db
        userId username courseId).events = [] ∧
     (sendCreditRequestPost env (sendCreditRequestPost env db userId username courseId).db
        userId username courseId).response = .ok) := by
  cases hH : hasCreditRequest db username (db.creditCourses.find? fun c => c == courseId) with
  | true =>
    have hpost : sendCreditRequestPost env db userId username courseId
        = { db := db, response := .ok, events := [] } := by
      unfold sendCreditRequestPost
      rw [hkey, henr]
      simp [hH]
    refine ⟨by simp [hH], fun _ => by simp [hpost], ?_⟩
    rw [hpost]
    simp [hpost]
  | false =>
    have hpost : sendCreditRequestPost env db userId username courseId
        = { db := { db with creditRequests := db.creditRequests ++
              [{ username := username, course := db.creditCourses.find? fun c => c == courseId,
                 provider := db.providers.head?, uuidHex := env.freshUuid,
                 paramsDescription := "autogenerated", status := "pending" }] },
            response := .ok, events := ["credit.request.created"] } := by
      unfold sendCreditRequestPost
      rw [hkey, henr]
      simp [hH]
    refine ⟨fun _ => by simp [hpost], by simp [hH], ?_⟩
    rw [hpost]
    have henr2 : creditEnrolled { db with creditRequests := db.creditRequests ++
        [{ username := username, course := db.creditCourses.find? fun c => c == courseId,
           provider := db.providers.head?, uuidHex := env.freshUuid,
           paramsDescription := "autogenerated", status := "pending" }] } userId courseId = true := henr
    have hH2 : hasCreditRequest { db with creditRequests := db.creditRequests ++
        [{ username := username, course := db.creditCourses.find? fun c => c == courseId,
           provider := db.providers.head?, uuidHex := env.freshUuid,
           paramsDescription := "autogenerated", status := "pending" }] } username
        (db.creditCourses.find? fun c => c == courseId) = true := by
      simp [hasCreditRequest]
    unfold sendCreditRequestPost
    rw [hkey, henr2]
    simp [hH2]

theorem sendCreditRequest_idempotent_witness :
    (sendCreditRequestPost creditEnv0 (sendCreditRequestPost creditEnv0 creditDb0 5 "harry" "course-v1:X+Y+Z").db
        5 "harry" "course-v1:X+Y+Z").events = [] :=
  (sendCreditRequest_idempotent creditEnv0 creditDb0 5 "harry" "course-v1:X+Y+Z" rfl rfl).2.2.2.1

/- ----------------------------------------------------------------------------
Section 3: handle_score_changed (lms/djangoapps/gating/signals.py).
---------------------------------------------------------------------------- -/

/-- An opaque-keys CourseKey object. -/
structure CourseKeyVal where
  key : String
deriving DecidableEq, Repr

/-- An opaque-keys UsageKey object. -/
structure UsageKeyVal where
  key : String
deriving DecidableEq, Repr

/-- Value of the course_id / usage_id keyword argument of the signal: a str (or
unicode) value, an already-typed key object, or None when the kwarg is absent. -/
inductive PyKeyArg (κ : Type) where
  | strVal (s : String)
  | typedVal (k : κ)
  | noneVal
deriving DecidableEq, Repr

/-- Errors that propagate out of handle_score_changed uncaught. -/
inductive GatingError where
  | invalidKeyError
  | itemNotFoundError
deriving DecidableEq, Repr

/-- Embedding of the Python expression
type(x) in (str, unicode) and Key.from_string(x) or x: a string value is parsed
(from_string raises InvalidKeyError on failure), anything else passes through
unchanged (key objects are truthy, so the or-fallback never fires for them). -/
def resolveKeyArg {κ : Type} (parse : String → Option κ) : PyKeyArg κ → Except GatingError (Option κ)
  | .strVal s =>
    match parse s with
    | some k => .ok (some k)
    | none => .error .invalidKeyError
  | .typedVal k => .ok (some k)
  | .noneVal => .ok none

/-- External behaviour used by handle_score_changed: key parsing
(CourseKey.from_string / UsageKey.from_string) and the modulestore.  get_course
returns the course or None; get_item raises when the block is absent.  Course
and block objects are represented by opaque numeric handles. -/
structure GatingEnv where
  parseCourseKey : String → Option CourseKeyVal
  parseUsageKey : String → Option UsageKeyVal
  getCourse : Option CourseKeyVal → Option Nat
  getItem : Option UsageKeyVal → Option Nat

/-- Calls made into gating.api by the handler, in order. -/
inductive GatingCall where
  | evaluatePrerequisite (course : Option Nat) (block : Nat) (userId : Option Nat)
  | evaluateEntranceExam (course : Option Nat) (block : Nat) (userId : Option Nat)
deriving DecidableEq, Repr

/-- Embedding of handle_score_changed.  On success it yields the list of
gating-api calls made, in order, together with the Python return value (always
None, modelled as the second component being none). -/
def handle_score_changed (env : GatingEnv) (courseIdArg : PyKeyArg CourseKeyVal)
    (usageIdArg : PyKeyArg UsageKeyVal) (userId : Option Nat) :
    Except GatingError (List GatingCall × Option Nat) :=
  match resolveKeyArg env.parseCourseKey courseIdArg with
  | .error e => .error e
  | .ok courseId =>
    match resolveKeyArg env.parseUsageKey usageIdArg with
    | .error e => .error e
    | .ok usageId =>
      let course := env.getCourse courseId
      match env.getItem usageId with
      | none => .error .itemNotFoundError
      | some block =>
        .ok ([.evaluatePrerequisite course block userId, .evaluateEntranceExam course block userId], none)

/-- C8: when both identifiers resolve (strings parse into keys, typed keys pass
through unchanged) and the content block is found, handle_score_changed calls
gating_api.evaluate_prerequisite and then gating_api.evaluate_entrance_exam with
the fetched course, the fetched block and the notification user id, and returns
None. -/
theorem handle_score_changed_resolves_and_forwards
    (env : GatingEnv) (courseIdArg : PyKeyArg CourseKeyVal) (usageIdArg : PyKeyArg UsageKeyVal)
    (userId : Option Nat) (courseId : Option CourseKeyVal) (usageId : Option UsageKeyVal) (block : Nat)
    (hc : resolveKeyArg env.parseCourseKey courseIdArg = .ok courseId)
    (hu : resolveKeyArg env.parseUsageKey usageIdArg = .ok usageId)
    (hb : env.getItem usageId = some block) :
    handle_score_changed env courseIdArg usageIdArg userId
      = .ok ([.evaluatePrerequisite (env.getCourse courseId) block userId,
              .evaluateEntranceExam (env.getCourse courseId) block userId], none) ∧
    (∀ k, courseIdArg = .typedVal k → courseId = some k) ∧
    (∀ s, courseIdArg = .strVal s → env.parseCourseKey s = courseId) ∧
    (∀ k, usageIdArg = .typedVal k → usageId = some k) ∧
    (∀ s, usageIdArg = .strVal s → env.parseUsageKey s = usageId) := by
  refine ⟨?_, ?_, ?_, ?_, ?_⟩
  · simp [handle_score_changed, hc, hu, hb]
  · intro k hk
    subst hk
    simp [resolveKeyArg] at hc
    exact hc.symm
  · intro s hs
    subst hs
    simp only [resolveKeyArg] at hc
    cases hp : env.parseCourseKey s with
    | some k => rw [hp] at hc; simp at hc; exact hc
    | none => rw [hp] at hc; simp at hc
  · intro k hk
    subst hk
    simp [resolveKeyArg] at hu
    exact hu.symm
  · intro s hs
    subst hs
    simp only [resolveKeyArg] at hu
    cases hp : env.parseUsageKey s with
    | some k => rw [hp] at hu; simp at hu; exact hu
    | none => rw [hp] at hu; simp at hu

/-- Witness environment for the gating handler: every string parses and the
modulestore holds course 100 and block 200. -/
def gatingEnv0 : GatingEnv :=
  { parseCourseKey := fun s => some ⟨s⟩,
    parseUsageKey := fun s => some ⟨s⟩,
    getCourse := fun _ => some 100,
    getItem := fun _ => some 200 }

theorem handle_score_changed_witness :
    handle_score_changed gatingEnv0 (.strVal "course-v1:X+Y+Z")
        (.typedVal ⟨"block-v1:X+Y+Z+type@problem+block@p1"⟩) (some 7)
      = .ok ([.evaluatePrerequisite (some 100) 200 (some 7),
              .evaluateEntranceExam (some 100) 200 (some 7)], none) :=
  (handle_score_changed_resolves_and_forwards gatingEnv0 (.strVal "course-v1:X+Y+Z")
    (.typedVal ⟨"block-v1:X+Y+Z+type@problem+block@p1"⟩) (some 7)
    (some ⟨"course-v1:X+Y+Z"⟩) (some ⟨"block-v1:X+Y+Z+type@problem+block@p1"⟩) 200
    rfl rfl rfl).1

/- ----------------------------------------------------------------------------
Section 4: CreateUserView (lms/djangoapps/ospp_api/views.py).
---------------------------------------------------------------------------- -/

/-- Password alphabet used for the generated account password:
string.ascii_letters + string.digits. -/
def passwordAlphabet : String :=
  "abcdefghijklmnopqrstuvwxyzABCDEFGHIJKLMNOPQRSTUVWXYZ0123456789"

/-- Random 32-character password, drawing each character from the alphabet with
an external randomness source (random.choice applied 32 times). -/
def generatedPassword (rand : Nat → Nat) : String :=
  String.mk ((List.range 32).map fun i =>
    passwordAlphabet.data.getD (rand i % passwordAlphabet.data.length) 'a')

/-- The request body of CreateUserView.post, with absent keys as none. -/
structure CreateUserRequestData where
  username : Option String
  email : Option String
  name_id : Option String
  first_name : Option String
  last_name : Option String
deriving DecidableEq, Repr

/-- The request data after CreateUserView.update_user_data_with_default_params. -/
structure PreparedUserData where
  username : Option String
  email : Option String
  name_id : Option String
  first_name : String
  last_name : String
  honor_code : String
  terms_of_service : String
  password : String
  name : String
  send_activation_email : Bool
deriving DecidableEq, Repr

/-- Python whitespace test used by str.strip. -/
def isPySpace (c : Char) : Bool :=
  c = ' ' || c = '\t' || c = '\n' || c = '\r' || c = Char.ofNat 11 || c = Char.ofNat 12

/-- Python str.strip: whitespace removed from both ends. -/
def pyStrip (s : String) : String :=
  String.mk (((s.data.dropWhile isPySpace).reverse.dropWhile isPySpace).reverse)

/-- The string built for the name field before the username fallback:
first_name and last_name joined by a space and stripped. -/
def formattedName (data : CreateUserRequestData) : String :=
  pyStrip (data.first_name.getD "" ++ " " ++ data.last_name.getD "")

/-- Embedding of CreateUserView.update_user_data_with_default_params.  The name
field falls back to data username when the stripped first/last combination is
empty; reading an absent username key there raises an uncaught KeyError. -/
def update_user_data_with_default_params (rand : Nat → Nat)
    (data : CreateUserRequestData) : Except String PreparedUserData :=
  match (if formattedName data = "" then
           match data.username with
           | some u => Except.ok u
           | none => Except.error "KeyError"
         else Except.ok (formattedName data) : Except String String) with
  | .error e => .error e
  | .ok nm =>
    .ok { username := data.username, email := data.email, name_id := data.name_id,
          first_name := data.first_name.getD "", last_name := data.last_name.getD "",
          honor_code := "True", terms_of_service := "True",
          password := generatedPassword rand, name := nm, send_activation_email := false }

/-- Embedding of CreateUserView.missed_params_validation: required params
(username, email, name_id) that are absent or empty, in declaration order. -/
def missedParams (d : PreparedUserData) : List String :=
  (if d.username.getD "" = "" then ["username"] else []) ++
  (if d.email.getD "" = "" then ["email"] else []) ++
  (if d.name_id.getD "" = "" then ["name_id"] else [])

/-- An auth.User row, as far as the embedded views read and write it. -/
structure UserRow where
  id : Nat
  username : String
  email : String
  is_active : Bool
  first_name : String
  last_name : String
deriving DecidableEq, Repr

/-- A social_django UserSocialAuth row. -/
structure SocialAuthRow where
  userId : Nat
  provider : String
  uid : String
deriving DecidableEq, Repr

/-- Database state read and written by CreateUserView.post.  samlBackendName is
SAMLProviderConfig.objects.first().backend_name, or none when no provider
configuration row exists. -/
structure UserDb where
  users : List UserRow
  socialAuths : List SocialAuthRow
  samlBackendName : Option String
  nextUserId : Nat
deriving DecidableEq, Repr

/-- External behaviour used by CreateUserView.post: the randomness source for the
password and the account factory create_account_with_params (which may raise
ValidationError, modelled by the createAccountValid predicate). -/
structure CreateUserEnv where
  rand : Nat → Nat
  createAccount : PreparedUserData → Nat → UserRow
  createAccountValid : PreparedUserData → Bool

/-- Responses of CreateUserView.post. uncaughtKeyError is the KeyError escaping
update_user_data_with_default_params on a nameless request without a username. -/
inductive CreateUserResponse where
  | success (userId : Nat)
  | missingParams (params : List String)
  | userAlreadyExists (errorCode : Nat) (userId : Nat)
  | wrongParameters
  | wrongIdpConfiguration
  | uncaughtKeyError
deriving DecidableEq, Repr

/-- HTTP status of a CreateUserResponse (an uncaught exception surfaces as 500). -/
def createUserStatusOf : CreateUserResponse → Nat
  | .success _ => 200
  | .missingParams _ => 400
  | .userAlreadyExists _ _ => 409
  | .wrongParameters => 400
  | .wrongIdpConfiguration => 400
  | .uncaughtKeyError => 500

/-- Result of one CreateUserView.post call: the database afterwards, the
response, the account created during the request (with the prepared data it was
created from), and the social-auth links created during the request. -/
structure CreateUserResult where
  db : UserDb
  response : CreateUserResponse
  created : Option (UserRow × PreparedUserData)
  createdSocial : List SocialAuthRow
deriving DecidableEq, Repr

/-- User.objects.filter(Q(email=email) | Q(username=username)).first(), guarded
by check_account_exists (which reports whether such an account exists). -/
def findExistingUser (db : UserDb) (email username : String) : Option UserRow :=
  db.users.find? fun u => u.email == email || u.username == username

/-- UserSocialAuth.objects.filter(user=user).exists(). -/
def hasSocialAuth (db : UserDb) (userId : Nat) : Bool :=
  db.socialAuths.any fun s => s.userId == userId

/-- Embedding of CreateUserView.post. -/
def createUserViewPost (env : CreateUserEnv) (db : UserDb)
    (data : CreateUserRequestData) : CreateUserResult :=
  match update_user_data_with_default_params env.rand data with
  | .error _ => { db := db, response := .uncaughtKeyError, created := none, createdSocial := [] }
  | .ok d =>
    if missedParams d = [] then
      match findExistingUser db (d.email.getD "") (d.username.getD "") with
      | some u =>
        if hasSocialAuth db u.id then
          { db := db, response := .userAlreadyExists 1 u.id, created := none, createdSocial := [] }
        else
          match db.samlBackendName with
          | none => { db := db, response := .wrongIdpConfiguration, created := none, createdSocial := [] }
          | some idp =>
            let link : SocialAuthRow :=
              { userId := u.id, provider := idp, uid := idp ++ ":" ++ d.name_id.getD "" }
            { db := { db with socialAuths := db.socialAuths ++ [link] },
              response := .success u.id, created := none, createdSocial := [link] }
      | none =>
        if env.createAccountValid d then
          let u0 := env.createAccount d db.nextUserId
          let u := { u0 with is_active := true, first_name := d.first_name, last_name := d.last_name }
          match db.samlBackendName with
          | none =>
            { db := { db with users := db.users ++ [u], nextUserId := db.nextUserId + 1 },
              response := .wrongIdpConfiguration, created := some (u, d), createdSocial := [] }
          | some idp =>
            let link : SocialAuthRow :=
              { userId := u.id, provider := idp, uid := idp ++ ":" ++ d.name_id.getD "" }
            let db2 : UserDb :=
              { db with
                users := db.users ++ [u],
                nextUserId := db.nextUserId + 1,
                socialAuths := db.socialAuths ++ [link] }
            { db := db2,
              response := .success u.id, created := some (u, d), createdSocial := [link] }
        else
          { db := db, response := .wrongParameters, created := none, createdSocial := [] }
    else
      { db := db, response := .missingParams (missedParams d), created := none, createdSocial := [] }

/-- A getD lookup lands in the list or is the default element. -/
theorem list_getD_mem_or {α : Type} (l : List α) (n : Nat) (d : α) :
    l.getD n d ∈ l ∨ l.getD n d = d := by
  rcases Nat.lt_or_ge n l.length with h | h
  · left
    rw [List.getD_eq_getElem l d h]
    exact List.getElem_mem h
  · right
    exact List.getD_eq_default l d h

/-- The generated password has 32 characters. -/
theorem generatedPassword_length (rand : Nat → Nat) : (generatedPassword rand).length = 32 := by
  show ((List.range 32).map fun i =>
    passwordAlphabet.data.getD (rand i % passwordAlphabet.data.length) 'a').length = 32
  simp

/-- Every character of the generated password is drawn from the alphabet. -/
theorem generatedPassword_mem (rand : Nat → Nat) :
    ∀ c ∈ (generatedPassword rand).data, c ∈ passwordAlphabet.data := by
  intro c hc
  simp only [generatedPassword, List.mem_map, List.mem_range] at hc
  obtain ⟨i, _, rfl⟩ := hc
  rcases list_getD_mem_or passwordAlphabet.data (rand i % passwordAlphabet.data.length) 'a' with h | h
  · exact h
  · rw [h]
    decide

/-- Shape of the prepared data when update_user_data_with_default_params returns
normally: the forced defaults and the name computation. -/
theorem update_user_data_ok_shape (rand : Nat → Nat) (data : CreateUserRequestData)
    (d : PreparedUserData)
    (h : update_user_data_with_default_params rand data = .ok d) :
    d.honor_code = "True" ∧ d.terms_of_service = "True" ∧
    d.password = generatedPassword rand ∧ d.send_activation_email = false ∧
    d.username = data.username ∧ d.email = data.email ∧ d.name_id = data.name_id ∧
    (formattedName data = "" → ∃ un, data.username = some un ∧ d.name = un) ∧
    (formattedName data ≠ "" → d.name = formattedName data) := by
  unfold update_user_data_with_default_params at h
  by_cases ht : formattedName data = ""
  · rw [if_pos ht] at h
    cases hu : data.username with
    | none => rw [hu] at h; simp at h
    | some un =>
      rw [hu] at h
      simp only [Except.ok.injEq] at h
      subst h
      refine ⟨rfl, rfl, rfl, rfl, rfl, rfl, rfl, fun _ => ⟨un, rfl, rfl⟩, fun hne => absurd ht hne⟩
  · rw [if_neg ht] at h
    simp only [Except.ok.injEq] at h
    subst h
    exact ⟨rfl, rfl, rfl, rfl, rfl, rfl, rfl, fun he => absurd he ht, fun _ => rfl⟩

/-- C9: every account created through CreateUserView.post is saved active, with
no activation email, honor_code and terms_of_service forced to the string True,
a 32-character password drawn from the alphanumeric alphabet, and a name equal
to first_name last_name stripped, falling back to the username when both names
are empty. -/
theorem created_user_defaults
    (env : CreateUserEnv) (db : UserDb) (data : CreateUserRequestData)
    (u : UserRow) (d : PreparedUserData)
    (h : (createUserViewPost env db data).created = some (u, d)) :
    u.is_active = true ∧
    d.send_activation_email = false ∧
    d.honor_code = "True" ∧
    d.terms_of_service = "True" ∧
    d.password.length = 32 ∧
    (∀ c ∈ d.password.data, c ∈ passwordAlphabet.data) ∧
    (formattedName data = "" → ∃ un, data.username = some un ∧ d.name = un) ∧
    (formattedName data ≠ "" → d.name = formattedName data) := by
  unfold createUserViewPost at h
  cases hup : update_user_data_with_default_params env.rand data with
  | error e => rw [hup] at h; simp at h
  | ok d0 =>
    rw [hup] at h
    dsimp only at h
    obtain ⟨hhc, hts, hpw, hse, hu2, he2, hn2, hname1, hname2⟩ :=
      update_user_data_ok_shape env.rand data d0 hup
    have hfields : d0 = d → u.is_active = true →
        u.is_active = true ∧ d.send_activation_email = false ∧ d.honor_code = "True" ∧
        d.terms_of_service = "True" ∧ d.password.length = 32 ∧
        (∀ c ∈ d.password.data, c ∈ passwordAlphabet.data) ∧
        (formattedName data = "" → ∃ un, data.username = some un ∧ d.name = un) ∧
        (formattedName data ≠ "" → d.name = formattedName data) := by
      intro hd hact
      subst hd
      refine ⟨hact, hse, hhc, hts, ?_, ?_, hname1, hname2⟩
      · rw [hpw]; exact generatedPassword_length env.rand
      · rw [hpw]; exact generatedPassword_mem env.rand
    split at h
    · -- required params present
      split at h
      · -- an existing account was found
        split at h
        · simp at h
        · split at h
          · simp at h
          · simp at h
      · -- no existing account: creation path
        split at h
        · split at h
          · -- account created, then AttributeError on the missing SAML config
            simp only [Option.some.injEq, Prod.mk.injEq] at h
            exact hfields h.2 (by rw [← h.1])
          · -- account created and social link created
            simp only [Option.some.injEq, Prod.mk.injEq] at h
            exact hfields h.2 (by rw [← h.1])
        · simp at h
    · simp at h

/-- C6 (amended): for a request passing required-parameter validation whose
username or email matches an existing account, a linked account yields HTTP 409
with error code 1 and the existing id and nothing is created; an unlinked
account is reused when a SAML provider configuration exists: no new user, one
social-auth link, HTTP 200 with the existing id. -/
theorem existing_account_handling
    (env : CreateUserEnv) (db : UserDb) (data : CreateUserRequestData)
    (un e nid : String) (u : UserRow)
    (hun : data.username = some un) (hun2 : un ≠ "")
    (he : data.email = some e) (he2 : e ≠ "")
    (hnid : data.name_id = some nid) (hnid2 : nid ≠ "")
    (hfind : findExistingUser db e un = some u) :
    (hasSocialAuth db u.id = true →
      createUserViewPost env db data
        = { db := db, response := .userAlreadyExists 1 u.id,
            created := none, createdSocial := [] }) ∧
    (hasSocialAuth db u.id = false → ∀ idp, db.samlBackendName = some idp →
      createUserViewPost env db data
        = { db := { db with socialAuths :=
              db.socialAuths ++ [{ userId := u.id, provider := idp, uid := idp ++ ":" ++ nid }] },
            response := .success u.id, created := none,
            createdSocial := [{ userId := u.id, provider := idp, uid := idp ++ ":" ++ nid }] }) := by
  have hupex : ∃ nm, update_user_data_with_default_params env.rand data
      = .ok { username := data.username, email := data.email, name_id := data.name_id,
              first_name := data.first_name.getD "", last_name := data.last_name.getD "",
              honor_code := "True", terms_of_service := "True",
              password := generatedPassword env.rand, name := nm, send_activation_email := false } := by
    unfold update_user_data_with_default_params
    by_cases ht : formattedName data = ""
    · rw [if_pos ht, hun]
      exact ⟨un, rfl⟩
    · rw [if_neg ht]
      exact ⟨formattedName data, rfl⟩
  obtain ⟨nm, hup⟩ := hupex
  unfold createUserViewPost
  rw [hup]
  dsimp only
  rw [hun, he, hnid]
  have hmp : missedParams
      { username := some un, email := some e, name_id := some nid,
        first_name := data.first_name.getD "", last_name := data.last_name.getD "",
        honor_code := "True", terms_of_service := "True",
        password := generatedPassword env.rand, name := nm, send_activation_email := false } = [] := by
    simp [missedParams, hun2, he2, hnid2]
  rw [hmp]
  rw [if_pos rfl]
  simp only [Option.getD_some]
  rw [hfind]
  dsimp only
  constructor
  · intro hsoc
    rw [hsoc]
    rfl
  · intro hsoc idp hsaml
    rw [hsoc, hsaml]
    rfl

/-- Concrete environment for CreateUserView runs: identity randomness, account
creation always valid, accounts built from the prepared data. -/
def cuEnv0 : CreateUserEnv :=
  { rand := fun i => i,
    createAccount := fun d n =>
      { id := n, username := d.username.getD "", email := d.email.getD "",
        is_active := false, first_name := "", last_name := "" },
    createAccountValid := fun _ => true }

/-- An existing account named bob. -/
def bobRow : UserRow :=
  { id := 7, username := "bob", email := "bob@example.com",
    is_active := true, first_name := "", last_name := "" }

/-- Database where bob exists and already has a social-auth link. -/
def cuDbLinked : UserDb :=
  { users := [bobRow],
    socialAuths := [{ userId := 7, provider := "idp0", uid := "idp0:xyz" }],
    samlBackendName := some "idp0", nextUserId := 8 }

/-- Database where bob exists without a social-auth link and no SAML provider
configuration row exists. -/
def cuDbNoSaml : UserDb :=
  { users := [bobRow], socialAuths := [], samlBackendName := none, nextUserId := 8 }

/-- Empty database with a SAML provider configured. -/
def cuDbEmpty : UserDb :=
  { users := [], socialAuths := [], samlBackendName := some "idp0", nextUserId := 1 }

/-- A complete create-user request for bob. -/
def reqFull : CreateUserRequestData :=
  { username := some "bob", email := some "bob@example.com", name_id := some "xyz",
    first_name := some "Bo", last_name := some "B" }

/-- The same request without the name_id parameter. -/
def reqMissingNameId : CreateUserRequestData :=
  { reqFull with name_id := none }

/-- Counterexample to C6 as stated: (a) a request matching an existing linked
account but lacking name_id is answered 400 missing-params, not 409; (b) with an
unlinked existing account but no SAML provider configuration, the view answers
400 wrong-IdP-configuration, creates no link and does not return 200. -/
theorem createUser_existing_account_cex :
    ((createUserViewPost cuEnv0 cuDbLinked reqMissingNameId).response
        = .missingParams ["name_id"] ∧
     (createUserViewPost cuEnv0 cuDbLinked reqMissingNameId).response
        ≠ .userAlreadyExists 1 7) ∧
    ((createUserViewPost cuEnv0 cuDbNoSaml reqFull).response = .wrongIdpConfiguration ∧
     (createUserViewPost cuEnv0 cuDbNoSaml reqFull).createdSocial = [] ∧
     (createUserViewPost cuEnv0 cuDbNoSaml reqFull).response ≠ .success 7) := by
  refine ⟨⟨?_, ?_⟩, ?_, ?_, ?_⟩ <;> decide

theorem existing_account_handling_witness :
    createUserViewPost cuEnv0 cuDbLinked reqFull
      = { db := cuDbLinked, response := .userAlreadyExists 1 bobRow.id,
          created := none, createdSocial := [] } :=
  (existing_account_handling cuEnv0 cuDbLinked reqFull "bob" "bob@example.com" "xyz" bobRow
    rfl (by decide) rfl (by decide) rfl (by decide) rfl).1 rfl

/-- The account row created by the witness run below. -/
def uW : UserRow :=
  { id := 1, username := "bob", email := "bob@example.com",
    is_active := true, first_name := "Bo", last_name := "B" }

/-- The prepared data of the witness run below. -/
def dW : PreparedUserData :=
  { username := some "bob", email := some "bob@example.com", name_id := some "xyz",
    first_name := "Bo", last_name := "B", honor_code := "True", terms_of_service := "True",
    password := generatedPassword (fun i => i), name := "Bo B", send_activation_email := false }

theorem created_user_defaults_witness :
    uW.is_active = true ∧
    dW.send_activation_email = false ∧
    dW.honor_code = "True" ∧
    dW.terms_of_service = "True" ∧
    dW.password.length = 32 ∧
    (∀ c ∈ dW.password.data, c ∈ passwordAlphabet.data) ∧
    (formattedName reqFull = "" → ∃ un, reqFull.username = some un ∧ dW.name = un) ∧
    (formattedName reqFull ≠ "" → dW.name = formattedName reqFull) :=
  created_user_defaults cuEnv0 cuDbEmpty reqFull uW dW (by decide)

/- ----------------------------------------------------------------------------
Section 5: EnrollUserView.post (lms/djangoapps/ospp_api/views.py).
---------------------------------------------------------------------------- -/

/-- Hex digit value, as used by urllib.unquote. -/
def hexVal (c : Char) : Option Nat :=
  if c.isDigit then some (c.toNat - 48)
  else if 'a' ≤ c && c ≤ 'f' then some (c.toNat - 87)
  else if 'A' ≤ c && c ≤ 'F' then some (c.toNat - 70)
  else none

/-- Percent-decoding of urllib.unquote on the character list: a percent sign
followed by two hex digits decodes to that byte, anything else passes through. -/
def pyUnquoteAux : List Char → List Char
  | [] => []
  | '%' :: a :: b :: rest =>
    match hexVal a, hexVal b with
    | some ha, some hb => Char.ofNat (16 * ha + hb) :: pyUnquoteAux rest
    | _, _ => '%' :: pyUnquoteAux (a :: b :: rest)
  | c :: rest => c :: pyUnquoteAux rest

/-- urllib.unquote on a (non-None) string. -/
def pyUnquote (s : String) : String :=
  String.mk (pyUnquoteAux s.data)

/-- Python str.replace with a single-character pattern: course_id.replace of
space by plus. -/
def replaceSpacesWithPlus (s : String) : String :=
  String.mk (s.data.map fun c => if c = ' ' then '+' else c)

/-- The course id actually used by EnrollUserView.post:
urllib.unquote(raw).replace of spaces by plus signs. -/
def processCourseIdStr (raw : String) : String :=
  replaceSpacesWithPlus (pyUnquote raw)

/-- One entry of the enrollment_attributes request list. -/
structure EnrollAttr where
  ns : String
  name : String
deriving DecidableEq, Repr

/-- Rendering of an enrollment attribute, Python namespace:name. -/
def attrString (a : EnrollAttr) : String :=
  a.ns ++ ":" ++ a.name

/-- A JSON value for the fields validated with isinstance(value, bool): either a
boolean, or any non-boolean value carried with its string rendering. -/
inductive PyBoolArg where
  | pybool (b : Bool)
  | nonbool (rendered : String)
deriving DecidableEq, Repr

/-- The request body of EnrollUserView.post, with absent keys as none.
course_id is the value of request.data course_details course_id. -/
structure EnrollRequestData where
  course_id : Option String
  user_id : Option String
  mode : Option String
  partner_logo : Option String
  eligibility_status : Option Bool
  is_active : Option PyBoolArg
  enterprise_course_consent : Option PyBoolArg
  enrollment_attributes : Option (List EnrollAttr)
  email_opt_in : Option Bool
deriving DecidableEq, Repr

/-- The dict returned by api.get_enrollment, as far as the view reads it. -/
structure ApiEnrollment where
  mode : String
  is_active : Bool
deriving DecidableEq, Repr

/-- Errors raised by api.update_enrollment / api.add_enrollment and caught by
the view's except clauses. -/
inductive EnrollApiError where
  | courseModeNotFound (data : String)
  | courseNotFound
  | enrollmentExists (enrollment : String)
  | enrollmentError
deriving DecidableEq, Repr

/-- Write calls made into the enrollment api by the view. -/
inductive EnrollApiCall where
  | update (username courseId : String) (mode : Option String)
      (is_active : Option Bool) (attrs : Option (List EnrollAttr))
  | add (username courseId : String) (mode : Option String)
      (is_active : Option Bool) (attrs : Option (List EnrollAttr))
deriving DecidableEq, Repr

/-- The responses EnrollUserView.post can construct, tagged with the values
interpolated into their messages. -/
inductive EnrollResponse where
  | success (payload : String)
  | courseIdRequired
  | invalidCourseKey (courseId : String)
  | userIdRequired
  | userNotFound (userId : String)
  | invalidActivationStatus (value : String)
  | invalidConsentValue (value : String)
  | modeMismatch (activeMode : String) (requestedMode : Option String)
  | missingEnrollmentAttributes (mode : Option String)
  | courseModeUnavailable (mode : Option String) (courseId : String) (data : String)
  | courseNotFoundResponse (courseId : String)
  | enrollmentAlreadyExists (enrollment : String)
  | enrollmentErrorResponse
deriving DecidableEq, Repr

/-- HTTP status of each EnrollResponse.  Response(data=error.enrollment) for an
already-existing enrollment carries the default 200 status. -/
def enrollStatusOf : EnrollResponse → Nat
  | .success _ => 200
  | .enrollmentAlreadyExists _ => 200
  | .userNotFound _ => 406
  | _ => 400

/-- Overall outcome of one EnrollUserView.post call: an HTTP response, the
uncaught AttributeError from urllib.unquote(None), or the uncaught DoesNotExist
from CourseEnrollment.objects.get inside the finally block. -/
inductive EnrollOutcome where
  | response (r : EnrollResponse)
  | attributeError
  | courseEnrollmentDoesNotExist
deriving DecidableEq, Repr

/-- An ospp_api.models.OSPPEnrollmentFeature row. -/
structure OsppFeatureRow where
  enrollment_id : Nat
  partner_logo : String
  eligibility_status : Bool
deriving DecidableEq, Repr

/-- The fields of the enrollment_change_requested audit_log entry. -/
structure AuditEntry where
  course_id : String
  requested_mode : Option String
  actual_mode : Option String
  requested_activation : Option PyBoolArg
  actual_activation : Option Bool
  user_id : String
deriving DecidableEq, Repr

/-- External behaviour and database state used by EnrollUserView.post.  The two
get-enrollment fields are the same api.get_enrollment read performed at two
different times (before the write call and inside the finally block). -/
structure EnrollEnv where
  validCourseKey : String → Bool
  users : List (String × String)
  getEnrollment : String → String → Option ApiEnrollment
  getEnrollmentFinal : String → String → Option ApiEnrollment
  updateEnrollment : String → String → Option String → Option Bool →
      Option (List EnrollAttr) → Except EnrollApiError String
  addEnrollment : String → String → Option String → Option Bool →
      Option (List EnrollAttr) → Except EnrollApiError String
  enterpriseEnabled : Bool
  enterprisePostOk : String → String → Bool → Bool
  courseEnrollmentRowId : String → String → Option Nat
  requiredAttributes : String → List String
  osppRows : List OsppFeatureRow

/-- Result of one EnrollUserView.post call: the outcome, the enrollment-api
write calls made, the OSPPEnrollmentFeature store afterwards, and the audit
entries written during the request. -/
structure EnrollPostResult where
  outcome : EnrollOutcome
  apiCalls : List EnrollApiCall
  osppRows : List OsppFeatureRow
  auditEntries : List AuditEntry
deriving DecidableEq, Repr

/-- The Python variable is_active after its isinstance check: none or a bool. -/
def pyIsActiveOpt : Option PyBoolArg → Option Bool
  | some (.pybool b) => some b
  | _ => none

/-- Python not on an optional bool (None is falsy). -/
def pyNotOpt : Option Bool → Bool
  | none => true
  | some b => !b

/-- mode_changed: enrollment and mode is not None and mode of enrollment != mode. -/
def modeChangedOf (enrollment : Option ApiEnrollment) (mode : Option String) : Bool :=
  match enrollment, mode with
  | some e, some m => e.mode != m
  | _, _ => false

/-- active_changed: enrollment and is_active is not None and is_active of
enrollment != is_active. -/
def activeChangedOf (enrollment : Option ApiEnrollment) (isActive : Option Bool) : Bool :=
  match enrollment, isActive with
  | some e, some b => e.is_active != b
  | _, _ => false

/-- REQUIRED_ATTRIBUTES.get(mode, []) with mode possibly None. -/
def requiredForMode (env : EnrollEnv) : Option String → List String
  | some m => env.requiredAttributes m
  | none => []

/-- missing_attrs: required attribute renderings absent from the request's
enrollment_attributes; stays empty when the attribute list is falsy. -/
def missingAttrsOf (required : List String) (attrs : Option (List EnrollAttr)) : List String :=
  match attrs with
  | some l => if l.isEmpty then [] else required.filter fun r => !(l.any fun a => attrString a == r)
  | none => []

/-- Mode of the current enrollment, read only where the guard ensures the
enrollment exists (the empty-string default is unreachable there). -/
def enrollmentModeStr : Option ApiEnrollment → String
  | some e => e.mode
  | none => ""

/-- Responses built by the except handlers of the view for each api error. -/
def enrollErrorResponse (e : EnrollApiError) (mode : Option String) (cid : String) : EnrollResponse :=
  match e with
  | .courseModeNotFound data => .courseModeUnavailable mode cid data
  | .courseNotFound => .courseNotFoundResponse cid
  | .enrollmentExists enr => .enrollmentAlreadyExists enr
  | .enrollmentError => .enrollmentErrorResponse

/-- The mode and activation diff and the update-or-add call, with the
deactivation-mismatch and missing-attributes guards.  A successful call is
followed by the external update_email_opt_in side effect (not tracked) and
Response(response). -/
def enrollChangeBranch (env : EnrollEnv) (req : EnrollRequestData) (cid username : String)
    (isActive : Option Bool) : EnrollResponse × List EnrollApiCall :=
  let attrs := req.enrollment_attributes
  let enrollment := env.getEnrollment username cid
  let modeChanged := modeChangedOf enrollment req.mode
  let activeChanged := activeChangedOf enrollment isActive
  let missing := missingAttrsOf (requiredForMode env req.mode) attrs
  if modeChanged || activeChanged then
    if modeChanged && activeChanged && pyNotOpt isActive then
      (.modeMismatch (enrollmentModeStr enrollment) req.mode, [])
    else if missing.length > 0 then
      (.missingEnrollmentAttributes req.mode, [])
    else
      match env.updateEnrollment username cid req.mode isActive attrs with
      | .ok payload => (.success payload, [.update username cid req.mode isActive attrs])
      | .error e => (enrollErrorResponse e req.mode cid, [.update username cid req.mode isActive attrs])
  else
    match env.addEnrollment username cid req.mode isActive attrs with
    | .ok payload => (.success payload, [.add username cid req.mode isActive attrs])
    | .error e => (enrollErrorResponse e req.mode cid, [.add username cid req.mode isActive attrs])

/-- The enterprise-consent step: isinstance validation and the enterprise api
call, whose failure is re-raised as CourseEnrollmentError and caught by the
matching except handler. -/
def enrollAfterActivation (env : EnrollEnv) (req : EnrollRequestData) (cid username : String)
    (isActive : Option Bool) : EnrollResponse × List EnrollApiCall :=
  match req.enterprise_course_consent with
  | none => enrollChangeBranch env req cid username isActive
  | some c =>
    if env.enterpriseEnabled then
      match c with
      | .nonbool v => (.invalidConsentValue v, [])
      | .pybool b =>
        if env.enterprisePostOk username cid b then
          enrollChangeBranch env req cid username isActive
        else
          (.enrollmentErrorResponse, [])
    else
      enrollChangeBranch env req cid username isActive

/-- The try block of EnrollUserView.post, beginning with the activation-status
validation.  It always ends in a response; every raise inside it is caught by
one of the view's except handlers. -/
def enrollTryBody (env : EnrollEnv) (req : EnrollRequestData) (cid username : String) :
    EnrollResponse × List EnrollApiCall :=
  match req.is_active with
  | some (.nonbool v) => (.invalidActivationStatus v, [])
  | none => enrollAfterActivation env req cid username none
  | some (.pybool b) => enrollAfterActivation env req cid username (some b)

/-- The OSPPEnrollmentFeature upsert performed in the finally block: a row for
the enrollment is created when absent, otherwise its partner_logo and
eligibility_status are overwritten. -/
def upsertOsppRow (rows : List OsppFeatureRow) (rid : Nat) (logo : String) (elig : Bool) :
    List OsppFeatureRow :=
  if !(rows.any fun r => r.enrollment_id == rid) then
    rows ++ [{ enrollment_id := rid, partner_logo := logo, eligibility_status := elig }]
  else
    rows.map fun r =>
      if r.enrollment_id == rid then { r with partner_logo := logo, eligibility_status := elig } else r

/-- The finally block: re-reads the enrollment, fetches the CourseEnrollment row
(raising DoesNotExist when absent, which replaces the response), upserts the
OSPPEnrollmentFeature row and writes the audit entry. -/
def runEnrollFinally (env : EnrollEnv) (req : EnrollRequestData) (cid userId username : String)
    (body : EnrollResponse × List EnrollApiCall) : EnrollPostResult :=
  let current := env.getEnrollmentFinal username cid
  match env.courseEnrollmentRowId cid userId with
  | none =>
    { outcome := .courseEnrollmentDoesNotExist, apiCalls := body.2,
      osppRows := env.osppRows, auditEntries := [] }
  | some rid =>
    { outcome := .response body.1, apiCalls := body.2,
      osppRows := upsertOsppRow env.osppRows rid (req.partner_logo.getD "")
        (req.eligibility_status.getD false),
      auditEntries := [{ course_id := cid, requested_mode := req.mode,
                         actual_mode := current.map fun e => e.mode,
                         requested_activation := req.is_active,
                         actual_activation := current.map fun e => e.is_active,
                         user_id := userId }] }

/-- Embedding of EnrollUserView.post. -/
def enrollUserViewPost (env : EnrollEnv) (req : EnrollRequestData) : EnrollPostResult :=
  match req.course_id with
  | none =>
    { outcome := .attributeError, apiCalls := [], osppRows := env.osppRows, auditEntries := [] }
  | some raw =>
    let cid := processCourseIdStr raw
    if cid = "" then
      { outcome := .response .courseIdRequired, apiCalls := [],
        osppRows := env.osppRows, auditEntries := [] }
    else if env.validCourseKey cid = false then
      { outcome := .response (.invalidCourseKey cid), apiCalls := [],
        osppRows := env.osppRows, auditEntries := [] }
    else
      match req.user_id with
      | none =>
        { outcome := .response .userIdRequired, apiCalls := [],
          osppRows := env.osppRows, auditEntries := [] }
      | some uid =>
        if uid = "" then
          { outcome := .response .userIdRequired, apiCalls := [],
            osppRows := env.osppRows, auditEntries := [] }
        else
          match env.users.find? fun u => u.1 == uid with
          | none =>
            { outcome := .response (.userNotFound uid), apiCalls := [],
              osppRows := env.osppRows, auditEntries := [] }
          | some user =>
            runEnrollFinally env req cid user.1 user.2 (enrollTryBody env req cid user.2)

/-- C5: when the course_details course_id lookup yields None, urllib.unquote
raises an uncaught AttributeError before the emptiness check, so the view never
produces the course-id-required 400 response for such requests. -/
theorem enroll_none_course_id_raises (env : EnrollEnv) (req : EnrollRequestData)
    (h : req.course_id = none) :
    (enrollUserViewPost env req).outcome = .attributeError ∧
    (enrollUserViewPost env req).outcome ≠ .response .courseIdRequired := by
  unfold enrollUserViewPost
  rw [h]
  exact ⟨rfl, by simp⟩

/-- The finally block never changes which api write calls were made. -/
theorem runEnrollFinally_apiCalls (env : EnrollEnv) (req : EnrollRequestData)
    (cid userId username : String) (body : EnrollResponse × List EnrollApiCall) :
    (runEnrollFinally env req cid userId username body).apiCalls = body.2 := by
  unfold runEnrollFinally
  split <;> rfl

/-- The boolean diff of the view agrees with its propositional reading: a
current enrollment exists and the requested mode (when given) or the requested
activation (when given) differs from it. -/
theorem changed_iff (enrollment : Option ApiEnrollment) (mode : Option String)
    (isActive : Option Bool) :
    (modeChangedOf enrollment mode || activeChangedOf enrollment isActive) = true ↔
    ∃ e, enrollment = some e ∧
      ((∃ m, mode = some m ∧ e.mode ≠ m) ∨ (∃ b, isActive = some b ∧ e.is_active ≠ b)) := by
  cases enrollment with
  | none => simp [modeChangedOf, activeChangedOf]
  | some e =>
    cases mode with
    | none =>
      cases isActive with
      | none => simp [modeChangedOf, activeChangedOf]
      | some b => simp [modeChangedOf, activeChangedOf, bne_iff_ne]
    | some m =>
      cases isActive with
      | none => simp [modeChangedOf, activeChangedOf, bne_iff_ne]
      | some b => simp [modeChangedOf, activeChangedOf, bne_iff_ne]

/-- The consent step passes: either no consent value was sent, or the
enterprise integration is disabled, or the value is a boolean and the
enterprise api call succeeds. -/
def consentStepOk (env : EnrollEnv) (req : EnrollRequestData) (cid username : String) : Prop :=
  req.enterprise_course_consent = none ∨ env.enterpriseEnabled = false ∨
  ∃ b, req.enterprise_course_consent = some (.pybool b) ∧ env.enterprisePostOk username cid b = true

/-- Calls made by the change branch: exactly one update call when the diff is
set and the guards pass, exactly one add call otherwise. -/
theorem enrollChangeBranch_calls (env : EnrollEnv) (req : EnrollRequestData)
    (cid username : String) (isActive : Option Bool)
    (hguard1 : ¬(modeChangedOf (env.getEnrollment username cid) req.mode = true ∧
                 activeChangedOf (env.getEnrollment username cid) isActive = true ∧
                 pyNotOpt isActive = true))
    (hguard2 : (modeChangedOf (env.getEnrollment username cid) req.mode ||
                activeChangedOf (env.getEnrollment username cid) isActive) = true →
               missingAttrsOf (requiredForMode env req.mode) req.enrollment_attributes = []) :
    ((modeChangedOf (env.getEnrollment username cid) req.mode ||
      activeChangedOf (env.getEnrollment username cid) isActive) = true →
      (enrollChangeBranch env req cid username isActive).2
        = [.update username cid req.mode isActive req.enrollment_attributes]) ∧
    ((modeChangedOf (env.getEnrollment username cid) req.mode ||
      activeChangedOf (env.getEnrollment username cid) isActive) = false →
      (enrollChangeBranch env req cid username isActive).2
        = [.add username cid req.mode isActive req.enrollment_attributes]) := by
  constructor
  · intro hch
    have hg : (modeChangedOf (env.getEnrollment username cid) req.mode &&
        activeChangedOf (env.getEnrollment username cid) isActive && pyNotOpt isActive) = false := by
      cases hmc : modeChangedOf (env.getEnrollment username cid) req.mode <;>
        cases hac : activeChangedOf (env.getEnrollment username cid) isActive <;>
        cases hna : pyNotOpt isActive <;> simp_all
    unfold enrollChangeBranch
    dsimp only
    rw [hch, if_pos rfl, hg]
    rw [hguard2 hch]
    dsimp only [List.length_nil]
    rw [if_neg (by decide), if_neg (by decide)]
    cases env.updateEnrollment username cid req.mode isActive req.enrollment_attributes <;> rfl
  · intro hch
    unfold enrollChangeBranch
    dsimp only
    rw [hch]
    rw [if_neg (by decide)]
    cases env.addEnrollment username cid req.mode isActive req.enrollment_attributes <;> rfl

/-- A passing consent step falls through to the diff-and-call logic. -/
theorem enrollAfterActivation_consent_ok (env : EnrollEnv) (req : EnrollRequestData)
    (cid username : String) (ia : Option Bool)
    (hconsent : consentStepOk env req cid username) :
    enrollAfterActivation env req cid username ia = enrollChangeBranch env req cid username ia := by
  unfold enrollAfterActivation
  rcases hconsent with hnone | hdis | ⟨b, hb, hok⟩
  · rw [hnone]
  · cases hc : req.enterprise_course_consent with
    | none => rfl
    | some c =>
      dsimp only
      rw [if_neg (by simp [hdis])]
  · cases hen : env.enterpriseEnabled with
    | false => rw [hb]; simp [hen]
    | true => rw [hb]; simp [hen, hok]

/-- With a valid activation status and a passing consent step, the try block is
exactly the diff-and-call logic on the boolean activation value. -/
theorem enrollTryBody_eq_change (env : EnrollEnv) (req : EnrollRequestData)
    (cid username : String)
    (hact : req.is_active = none ∨ ∃ b, req.is_active = some (.pybool b))
    (hconsent : consentStepOk env req cid username) :
    enrollTryBody env req cid username
      = enrollChangeBranch env req cid username (pyIsActiveOpt req.is_active) := by
  rcases hact with hnone | ⟨b, hb⟩
  · have hia : pyIsActiveOpt req.is_active = none := by rw [hnone]; rfl
    unfold enrollTryBody
    rw [hia, hnone]
    dsimp only
    exact enrollAfterActivation_consent_ok env req cid username none hconsent
  · have hia : pyIsActiveOpt req.is_active = some b := by rw [hb]; rfl
    unfold enrollTryBody
    rw [hia, hb]
    dsimp only
    exact enrollAfterActivation_consent_ok env req cid username (some b) hconsent

/-- A request that passes course-id processing and user lookup runs the try
block and then the finally block. -/
theorem enrollUserViewPost_eq_finally (env : EnrollEnv) (req : EnrollRequestData)
    (raw uid : String) (user : String × String)
    (hraw : req.course_id = some raw)
    (hcid : processCourseIdStr raw ≠ "")
    (hvalid : env.validCourseKey (processCourseIdStr raw) = true)
    (huid : req.user_id = some uid) (huidne : uid ≠ "")
    (huser : env.users.find? (fun u => u.1 == uid) = some user) :
    enrollUserViewPost env req
      = runEnrollFinally env req (processCourseIdStr raw) user.1 user.2
          (enrollTryBody env req (processCourseIdStr raw) user.2) := by
  unfold enrollUserViewPost
  rw [hraw]
  dsimp only
  rw [if_neg hcid, if_neg (by simp [hvalid]), huid]
  dsimp only
  rw [if_neg huidne, huser]

/-- C2: for a request passing course-id, user, activation-status and consent
validation, with neither guard rejecting it: exactly one enrollment-api write is
made, an update call exactly when a current enrollment exists and the requested
mode (when given) or requested activation (when given) differs from it, and an
add call in every other case. -/
theorem enroll_update_xor_add
    (env : EnrollEnv) (req : EnrollRequestData) (raw uid : String) (user : String × String)
    (hraw : req.course_id = some raw)
    (hcid : processCourseIdStr raw ≠ "")
    (hvalid : env.validCourseKey (processCourseIdStr raw) = true)
    (huid : req.user_id = some uid) (huidne : uid ≠ "")
    (huser : env.users.find? (fun u => u.1 == uid) = some user)
    (hact : req.is_active = none ∨ ∃ b, req.is_active = some (.pybool b))
    (hconsent : consentStepOk env req (processCourseIdStr raw) user.2)
    (hguard1 : ¬(modeChangedOf (env.getEnrollment user.2 (processCourseIdStr raw)) req.mode = true ∧
                 activeChangedOf (env.getEnrollment user.2 (processCourseIdStr raw))
                   (pyIsActiveOpt req.is_active) = true ∧
                 pyNotOpt (pyIsActiveOpt req.is_active) = true))
    (hguard2 : (modeChangedOf (env.getEnrollment user.2 (processCourseIdStr raw)) req.mode ||
                activeChangedOf (env.getEnrollment user.2 (processCourseIdStr raw))
                  (pyIsActiveOpt req.is_active)) = true →
               missingAttrsOf (requiredForMode env req.mode) req.enrollment_attributes = []) :
    ((∃ e, env.getEnrollment user.2 (processCourseIdStr raw) = some e ∧
        ((∃ m, req.mode = some m ∧ e.mode ≠ m) ∨
         (∃ b, pyIsActiveOpt req.is_active = some b ∧ e.is_active ≠ b))) →
      (enrollUserViewPost env req).apiCalls
        = [.update user.2 (processCourseIdStr raw) req.mode (pyIsActiveOpt req.is_active)
             req.enrollment_attributes]) ∧
    (¬(∃ e, env.getEnrollment user.2 (processCourseIdStr raw) = some e ∧
        ((∃ m, req.mode = some m ∧ e.mode ≠ m) ∨
         (∃ b, pyIsActiveOpt req.is_active = some b ∧ e.is_active ≠ b))) →
      (enrollUserViewPost env req).apiCalls
        = [.add user.2 (processCourseIdStr raw) req.mode (pyIsActiveOpt req.is_active)
             req.enrollment_attributes]) := by
  have hcalls : (enrollUserViewPost env req).apiCalls
      = (enrollChangeBranch env req (processCourseIdStr raw) user.2 (pyIsActiveOpt req.is_active)).2 := by
    rw [enrollUserViewPost_eq_finally env req raw uid user hraw hcid hvalid huid huidne huser,
        runEnrollFinally_apiCalls,
        enrollTryBody_eq_change env req (processCourseIdStr raw) user.2 hact hconsent]
  have hbranch := enrollChangeBranch_calls env req (processCourseIdStr raw) user.2
    (pyIsActiveOpt req.is_active) hguard1 hguard2
  constructor
  · intro hex
    rw [hcalls]
    exact hbranch.1 ((changed_iff _ _ _).mpr hex)
  · intro hnotex
    have hch : (modeChangedOf (env.getEnrollment user.2 (processCourseIdStr raw)) req.mode ||
        activeChangedOf (env.getEnrollment user.2 (processCourseIdStr raw))
          (pyIsActiveOpt req.is_active)) = false := by
      cases hcase : (modeChangedOf (env.getEnrollment user.2 (processCourseIdStr raw)) req.mode ||
          activeChangedOf (env.getEnrollment user.2 (processCourseIdStr raw))
            (pyIsActiveOpt req.is_active)) with
      | true => exact absurd ((changed_iff _ _ _).mp hcase) hnotex
      | false => rfl
    rw [hcalls]
    exact hbranch.2 hch

/-- C4: when a current enrollment exists, the requested mode differs, the
requested activation differs and is false, the view answers 400 with the
enrollment-mode-mismatch message and makes no enrollment-api write call. -/
theorem enroll_mode_mismatch_refuses_deactivation
    (env : EnrollEnv) (req : EnrollRequestData) (raw uid : String) (user : String × String)
    (e : ApiEnrollment) (m : String)
    (hraw : req.course_id = some raw)
    (hcid : processCourseIdStr raw ≠ "")
    (hvalid : env.validCourseKey (processCourseIdStr raw) = true)
    (huid : req.user_id = some uid) (huidne : uid ≠ "")
    (huser : env.users.find? (fun u => u.1 == uid) = some user)
    (hconsent : consentStepOk env req (processCourseIdStr raw) user.2)
    (henr : env.getEnrollment user.2 (processCourseIdStr raw) = some e)
    (hmode : req.mode = some m)
    (hdiff : e.mode ≠ m)
    (hcur : e.is_active = true)
    (hia : req.is_active = some (.pybool false))
    (hrow : env.courseEnrollmentRowId (processCourseIdStr raw) user.1 ≠ none) :
    (enrollUserViewPost env req).outcome = .response (.modeMismatch e.mode (some m)) ∧
    enrollStatusOf (.modeMismatch e.mode (some m)) = 400 ∧
    (enrollUserViewPost env req).apiCalls = [] := by
  have hiaopt : pyIsActiveOpt req.is_active = some false := by rw [hia]; rfl
  have hmc : modeChangedOf (env.getEnrollment user.2 (processCourseIdStr raw)) req.mode = true := by
    rw [henr, hmode]
    simp [modeChangedOf, bne_iff_ne, hdiff]
  have hac : activeChangedOf (env.getEnrollment user.2 (processCourseIdStr raw))
      (pyIsActiveOpt req.is_active) = true := by
    rw [henr, hiaopt]
    simp [activeChangedOf, hcur]
  have hno : pyNotOpt (pyIsActiveOpt req.is_active) = true := by rw [hiaopt]; rfl
  have htry : enrollTryBody env req (processCourseIdStr raw) user.2
      = (.modeMismatch e.mode (some m), []) := by
    rw [enrollTryBody_eq_change env req (processCourseIdStr raw) user.2
      (Or.inr ⟨false, hia⟩) hconsent]
    unfold enrollChangeBranch
    dsimp only
    rw [if_pos (by simp [hmc, hac]), if_pos (by simp [hmc, hac, hno])]
    rw [henr, hmode]
    rfl
  rw [enrollUserViewPost_eq_finally env req raw uid user hraw hcid hvalid huid huidne huser]
  unfold runEnrollFinally
  dsimp only
  cases hr : env.courseEnrollmentRowId (processCourseIdStr raw) user.1 with
  | none => exact absurd hr hrow
  | some rid =>
    rw [htry]
    exact ⟨rfl, rfl, rfl⟩

/-- C1 (amended): for a request that passes course-id processing and user
lookup, whenever the CourseEnrollment row for the user and course exists at
finally time, the view upserts the OSPPEnrollmentFeature side-record with the
request's partner_logo and eligibility_status and writes exactly one
enrollment_change_requested audit entry recording the requested and the actual
mode and activation, whatever response the try block produced. -/
theorem enroll_finally_always_persists
    (env : EnrollEnv) (req : EnrollRequestData) (raw uid : String) (user : String × String)
    (rid : Nat)
    (hraw : req.course_id = some raw)
    (hcid : processCourseIdStr raw ≠ "")
    (hvalid : env.validCourseKey (processCourseIdStr raw) = true)
    (huid : req.user_id = some uid) (huidne : uid ≠ "")
    (huser : env.users.find? (fun u => u.1 == uid) = some user)
    (hrow : env.courseEnrollmentRowId (processCourseIdStr raw) user.1 = some rid) :
    (enrollUserViewPost env req).osppRows
      = upsertOsppRow env.osppRows rid (req.partner_logo.getD "")
          (req.eligibility_status.getD false) ∧
    (enrollUserViewPost env req).auditEntries
      = [{ course_id := processCourseIdStr raw, requested_mode := req.mode,
           actual_mode := (env.getEnrollmentFinal user.2 (processCourseIdStr raw)).map
             fun e => e.mode,
           requested_activation := req.is_active,
           actual_activation := (env.getEnrollmentFinal user.2 (processCourseIdStr raw)).map
             fun e => e.is_active,
           user_id := user.1 }] ∧
    (∃ r, (enrollUserViewPost env req).outcome = .response r) := by
  rw [enrollUserViewPost_eq_finally env req raw uid user hraw hcid hvalid huid huidne huser]
  unfold runEnrollFinally
  dsimp only
  rw [hrow]
  exact ⟨rfl, rfl, ⟨(enrollTryBody env req (processCourseIdStr raw) user.2).1, rfl⟩⟩

/-- Environment for the counterexample runs: user 16 exists but no
CourseEnrollment row (and hence no current enrollment) exists for any course. -/
def enrollEnvCex : EnrollEnv :=
  { validCourseKey := fun _ => true,
    users := [("16", "bob")],
    getEnrollment := fun _ _ => none,
    getEnrollmentFinal := fun _ _ => none,
    updateEnrollment := fun _ _ _ _ _ => .ok "updated",
    addEnrollment := fun _ _ _ _ _ => .ok "added",
    enterpriseEnabled := false,
    enterprisePostOk := fun _ _ _ => true,
    courseEnrollmentRowId := fun _ _ => none,
    requiredAttributes := fun _ => [],
    osppRows := [] }

/-- A well-formed enrollment request for user 16. -/
def enrollReqBase : EnrollRequestData :=
  { course_id := some "course-v1:X+Y+Z", user_id := some "16", mode := some "audit",
    partner_logo := none, eligibility_status := none, is_active := none,
    enterprise_course_consent := none, enrollment_attributes := none, email_opt_in := none }

/-- The same request without a user id. -/
def enrollReqNoUser : EnrollRequestData :=
  { enrollReqBase with user_id := none }

/-- The same request with a non-boolean activation status. -/
def enrollReqBadActive : EnrollRequestData :=
  { enrollReqBase with is_active := some (.nonbool "maybe") }

/-- Counterexample to C1 as stated: (a) a request without a user id exits with
the 400 response before the try block, persisting no side-record and no audit
entry; (b) a request that reaches the try block but fails validation there, for
a user with no CourseEnrollment row, has the finally block itself raise
DoesNotExist, again persisting no side-record and no audit entry. -/
theorem enroll_finally_cex :
    ((enrollUserViewPost enrollEnvCex enrollReqNoUser).osppRows = [] ∧
     (enrollUserViewPost enrollEnvCex enrollReqNoUser).auditEntries = [] ∧
     (enrollUserViewPost enrollEnvCex enrollReqNoUser).outcome = .response .userIdRequired) ∧
    ((enrollUserViewPost enrollEnvCex enrollReqBadActive).osppRows = [] ∧
     (enrollUserViewPost enrollEnvCex enrollReqBadActive).auditEntries = [] ∧
     (enrollUserViewPost enrollEnvCex enrollReqBadActive).outcome
        = .courseEnrollmentDoesNotExist) := by
  refine ⟨⟨?_, ?_, ?_⟩, ?_, ?_, ?_⟩ <;> decide

/-- Environment for the witness runs: user 16 exists, is enrolled in audit mode
and active, and the CourseEnrollment row 42 exists for every course. -/
def enrollEnvW : EnrollEnv :=
  { validCourseKey := fun _ => true,
    users := [("16", "bob")],
    getEnrollment := fun _ _ => some { mode := "audit", is_active := true },
    getEnrollmentFinal := fun _ _ => some { mode := "verified", is_active := true },
    updateEnrollment := fun _ _ _ _ _ => .ok "updated",
    addEnrollment := fun _ _ _ _ _ => .ok "added",
    enterpriseEnabled := false,
    enterprisePostOk := fun _ _ _ => true,
    courseEnrollmentRowId := fun _ _ => some 42,
    requiredAttributes := fun _ => [],
    osppRows := [] }

/-- Request upgrading user 16 to verified mode while active. -/
def enrollReqUpgrade : EnrollRequestData :=
  { enrollReqBase with mode := some "verified", is_active := some (.pybool true) }

/-- Request asking to deactivate user 16 under the wrong mode. -/
def enrollReqDeact : EnrollRequestData :=
  { enrollReqBase with mode := some "verified", is_active := some (.pybool false) }

theorem enroll_none_course_id_witness :
    (enrollUserViewPost enrollEnvCex { enrollReqBase with course_id := none }).outcome
      = .attributeError ∧
    (enrollUserViewPost enrollEnvCex { enrollReqBase with course_id := none }).outcome
      ≠ .response .courseIdRequired :=
  enroll_none_course_id_raises enrollEnvCex { enrollReqBase with course_id := none } rfl

theorem enroll_update_xor_add_witness :
    (enrollUserViewPost enrollEnvW enrollReqUpgrade).apiCalls
      = [.update "bob" (processCourseIdStr "course-v1:X+Y+Z") (some "verified") (some true) none] :=
  (enroll_update_xor_add enrollEnvW enrollReqUpgrade "course-v1:X+Y+Z" "16" ("16", "bob")
    rfl (by decide) rfl rfl (by decide) rfl
    (Or.inr ⟨true, rfl⟩) (Or.inl rfl)
    (by decide) (fun _ => rfl)).1
    ⟨{ mode := "audit", is_active := true }, rfl, Or.inl ⟨"verified", rfl, by decide⟩⟩

theorem enroll_mode_mismatch_witness :
    (enrollUserViewPost enrollEnvW enrollReqDeact).outcome
      = .response (.modeMismatch "audit" (some "verified")) ∧
    enrollStatusOf (.modeMismatch "audit" (some "verified")) = 400 ∧
    (enrollUserViewPost enrollEnvW enrollReqDeact).apiCalls = [] :=
  enroll_mode_mismatch_refuses_deactivation enrollEnvW enrollReqDeact "course-v1:X+Y+Z" "16"
    ("16", "bob") { mode := "audit", is_active := true } "verified"
    rfl (by decide) rfl rfl (by decide) rfl (Or.inl rfl)
    rfl rfl (by decide) rfl rfl (by decide)

theorem enroll_finally_always_persists_witness :
    (enrollUserViewPost enrollEnvW enrollReqBase).osppRows
      = upsertOsppRow enrollEnvW.osppRows 42 "" false ∧
    (enrollUserViewPost enrollEnvW enrollReqBase).auditEntries
      = [{ course_id := processCourseIdStr "course-v1:X+Y+Z", requested_mode := some "audit",
           actual_mode := some "verified", requested_activation := none,
           actual_activation := some true, user_id := "16" }] ∧
    (∃ r, (enrollUserViewPost enrollEnvW enrollReqBase).outcome = .response r) :=
  enroll_finally_always_persists enrollEnvW enrollReqBase "course-v1:X+Y+Z" "16" ("16", "bob") 42
    rfl (by decide) rfl rfl (by decide) rfl rfl
